import Mathlib

/-!
Verification of the `jbweber/homelab` Nook API example client
(`nook/examples/api-usage/python-client.py`) and of the metadata-service
design the repository's specification reconstructs from it.

Part 1 embeds the Python `NookClient` class shallowly: each method becomes a
pure function from the client value and the call arguments to the HTTP
request it issues, and the two-line response-handling epilogue of each method
(`response.raise_for_status()` followed by `return response.json()` or by
returning `None`) becomes a function from an abstract HTTP response to an
`Except` value.

Part 2 models, from the specification's words, the server-side registries
that are absent from the provided source (Network/Machine/SSHKey registries
with referential integrity), and proves the specification's claims about
them.
-/

set_option autoImplicit false

namespace Nook

/-- A parsed JSON value, the result type of `response.json()` and the value
type of the dictionaries the client sends as request bodies. -/
inductive Json where
  | null
  | bool (b : Bool)
  | num (n : Int)
  | str (s : String)
  | arr (xs : List Json)
  | obj (fields : List (String × Json))
deriving Repr

/-- The HTTP verbs the client uses (`session.get`, `session.post`,
`session.delete`). -/
inductive Method where
  | GET
  | POST
  | DELETE
deriving DecidableEq, Repr

/-- An HTTP request as the client assembles it: verb, full URL, and the
optional JSON body (the Python dict passed as `json=data`, kept as an
association list in insertion order). -/
structure Request where
  method : Method
  url : String
  body : Option (List (String × Json))

/-- The keys of a request body, in insertion order. -/
def Request.bodyKeys (r : Request) : List String :=
  (r.body.getD []).map Prod.fst

/-- Python `s.rstrip('/')`: remove every trailing `'/'` character. -/
def rstripSlashes (s : String) : String :=
  String.mk ((s.data.reverse.dropWhile (fun c => c = '/')).reverse)

/-- The headers installed by `session.headers.update({...})` in
`NookClient.__init__`. -/
def defaultHeaders : List (String × String) :=
  [("Content-Type", "application/json"),
   ("User-Agent", "nook-python-client/1.0")]

/-- The state of a `NookClient` object: the stored `base_url` attribute and
the session's default headers. -/
structure NookClient where
  base_url : String
  headers : List (String × String)
deriving DecidableEq

/-- `NookClient.__init__`: store `base_url.rstrip('/')` and install the two
default headers on the session. -/
def NookClient.init (base_url : String) : NookClient :=
  { base_url := rstripSlashes base_url, headers := defaultHeaders }

/-- Python truthiness of an optional-string argument (`if ipv4:`): `None`
and the empty string are falsy. -/
def truthyStr : Option String → Bool
  | none => false
  | some s => s ≠ ""

/-- Python truthiness of an optional-int argument (`if network_id:`): `None`
and `0` are falsy. -/
def truthyInt : Option Int → Bool
  | none => false
  | some n => n ≠ 0

/-- Request issued by `get_machines`: `GET {base_url}/api/v0/machines`. -/
def NookClient.get_machines (c : NookClient) : Request :=
  { method := .GET, url := c.base_url ++ "/api/v0/machines", body := none }

/-- Request issued by `create_machine`: `POST {base_url}/api/v0/machines`
with `name` and `hostname` always in the body, and `ipv4` / `network_id`
added only when truthy. -/
def NookClient.create_machine (c : NookClient) (name hostname : String)
    (ipv4 : Option String) (network_id : Option Int) : Request :=
  let data := [("name", Json.str name), ("hostname", Json.str hostname)]
  let data := if truthyStr ipv4 then data ++ [("ipv4", Json.str (ipv4.getD ""))] else data
  let data := if truthyInt network_id then data ++ [("network_id", Json.num (network_id.getD 0))] else data
  { method := .POST, url := c.base_url ++ "/api/v0/machines", body := some data }

/-- Request issued by `get_machine_by_name`:
`GET {base_url}/api/v0/machines/name/{name}`. -/
def NookClient.get_machine_by_name (c : NookClient) (name : String) : Request :=
  { method := .GET, url := c.base_url ++ "/api/v0/machines/name/" ++ name, body := none }

/-- Request issued by `delete_machine`:
`DELETE {base_url}/api/v0/machines/{machine_id}`. -/
def NookClient.delete_machine (c : NookClient) (machine_id : Int) : Request :=
  { method := .DELETE, url := c.base_url ++ "/api/v0/machines/" ++ toString machine_id, body := none }

/-- Request issued by `get_networks`: `GET {base_url}/api/v0/networks`. -/
def NookClient.get_networks (c : NookClient) : Request :=
  { method := .GET, url := c.base_url ++ "/api/v0/networks", body := none }

/-- Request issued by `create_network`: `POST {base_url}/api/v0/networks`
with `name`, `bridge`, `subnet` always in the body, and `gateway`,
`dns_servers`, `description` added only when truthy. -/
def NookClient.create_network (c : NookClient) (name bridge subnet : String)
    (gateway dns_servers description : Option String) : Request :=
  let data := [("name", Json.str name), ("bridge", Json.str bridge), ("subnet", Json.str subnet)]
  let data := if truthyStr gateway then data ++ [("gateway", Json.str (gateway.getD ""))] else data
  let data := if truthyStr dns_servers then data ++ [("dns_servers", Json.str (dns_servers.getD ""))] else data
  let data := if truthyStr description then data ++ [("description", Json.str (description.getD ""))] else data
  { method := .POST, url := c.base_url ++ "/api/v0/networks", body := some data }

/-- Request issued by `get_ssh_keys`: `GET {base_url}/api/v0/ssh-keys`. -/
def NookClient.get_ssh_keys (c : NookClient) : Request :=
  { method := .GET, url := c.base_url ++ "/api/v0/ssh-keys", body := none }

/-- Request issued by `add_ssh_key`: `POST {base_url}/api/v0/ssh-keys` with
both `machine_id` and `key_text` in the body unconditionally. -/
def NookClient.add_ssh_key (c : NookClient) (machine_id : Int) (key_text : String) : Request :=
  { method := .POST, url := c.base_url ++ "/api/v0/ssh-keys",
    body := some [("machine_id", Json.num machine_id), ("key_text", Json.str key_text)] }

/-- Request issued by `delete_ssh_key`:
`DELETE {base_url}/api/v0/ssh-keys/{key_id}`. -/
def NookClient.delete_ssh_key (c : NookClient) (key_id : Int) : Request :=
  { method := .DELETE, url := c.base_url ++ "/api/v0/ssh-keys/" ++ toString key_id, body := none }

/-- An HTTP response as the client observes it: the status code and the
JSON value its body parses to. -/
structure HttpResponse where
  status : Nat
  jsonBody : Json

/-- `response.raise_for_status()` from the `requests` library: raise
`HTTPError` exactly when the status code is a 4xx client error or a 5xx
server error (`400 <= status < 600`); do nothing otherwise. -/
def raise_for_status (r : HttpResponse) : Except Nat Unit :=
  if 400 ≤ r.status ∧ r.status < 600 then Except.error r.status else Except.ok ()

/-- Response epilogue of `get_machines`: `raise_for_status` then
`return response.json()`. -/
def get_machines_handle (r : HttpResponse) : Except Nat Json := do
  raise_for_status r
  return r.jsonBody

/-- Response epilogue of `create_machine`. -/
def create_machine_handle (r : HttpResponse) : Except Nat Json := do
  raise_for_status r
  return r.jsonBody

/-- Response epilogue of `get_machine_by_name`. -/
def get_machine_by_name_handle (r : HttpResponse) : Except Nat Json := do
  raise_for_status r
  return r.jsonBody

/-- Response epilogue of `delete_machine`: `raise_for_status` and return
`None` (the body is discarded). -/
def delete_machine_handle (r : HttpResponse) : Except Nat Unit := do
  raise_for_status r

/-- Response epilogue of `get_networks`. -/
def get_networks_handle (r : HttpResponse) : Except Nat Json := do
  raise_for_status r
  return r.jsonBody

/-- Response epilogue of `create_network`. -/
def create_network_handle (r : HttpResponse) : Except Nat Json := do
  raise_for_status r
  return r.jsonBody

/-- Response epilogue of `get_ssh_keys`. -/
def get_ssh_keys_handle (r : HttpResponse) : Except Nat Json := do
  raise_for_status r
  return r.jsonBody

/-- Response epilogue of `add_ssh_key`. -/
def add_ssh_key_handle (r : HttpResponse) : Except Nat Json := do
  raise_for_status r
  return r.jsonBody

/-- Response epilogue of `delete_ssh_key`: `raise_for_status` and return
`None` (the body is discarded). -/
def delete_ssh_key_handle (r : HttpResponse) : Except Nat Unit := do
  raise_for_status r

/-- One client method call together with its arguments, used to reason about
arbitrary sequences of calls on one `NookClient` object. -/
inductive ApiCall where
  | get_machines
  | create_machine (name hostname : String) (ipv4 : Option String) (network_id : Option Int)
  | get_machine_by_name (name : String)
  | delete_machine (machine_id : Int)
  | get_networks
  | create_network (name bridge subnet : String) (gateway dns_servers description : Option String)
  | get_ssh_keys
  | add_ssh_key (machine_id : Int) (key_text : String)
  | delete_ssh_key (key_id : Int)

/-- Execute one method call on the client object, state-passing style: the
resulting client state and the request the call issues. None of the Python
method bodies assigns to `self.base_url` or to `self.session.headers`, so
each branch returns the client unchanged. -/
def applyCall (c : NookClient) : ApiCall → NookClient × Request
  | .get_machines => (c, c.get_machines)
  | .create_machine name hostname ipv4 nid => (c, c.create_machine name hostname ipv4 nid)
  | .get_machine_by_name name => (c, c.get_machine_by_name name)
  | .delete_machine i => (c, c.delete_machine i)
  | .get_networks => (c, c.get_networks)
  | .create_network name bridge subnet gw dns desc =>
      (c, c.create_network name bridge subnet gw dns desc)
  | .get_ssh_keys => (c, c.get_ssh_keys)
  | .add_ssh_key mid kt => (c, c.add_ssh_key mid kt)
  | .delete_ssh_key i => (c, c.delete_ssh_key i)

/-- The client state after a sequence of method calls. -/
def runCalls (c : NookClient) : List ApiCall → NookClient
  | [] => c
  | call :: rest => runCalls (applyCall c call).1 rest

end Nook

namespace NookServer

/-- Modelled from the spec: error kinds of the reconstructed metadata
service (spec taxonomy in its error-handling design section); the service
implementation is absent from the provided source. -/
inductive Err where
  | BadRequest
  | NotFound
  | DuplicateName
  | ReferencedByMachine
  | UnknownNetwork
  | UnknownMachine
  | InvalidSubnet
  | EmptyKey
deriving DecidableEq, Repr

/-- Modelled from the spec: a Network record of the Network Registry. -/
structure Network where
  id : Nat
  name : String
  bridge : String
  subnet : String
  gateway : Option String
  dns_servers : Option String
  description : Option String
deriving DecidableEq, Repr

/-- Modelled from the spec: a Machine record of the Machine Registry, with
an optional non-owning reference to a Network by id. -/
structure Machine where
  id : Nat
  name : String
  hostname : String
  ipv4 : Option String
  network_id : Option Nat
deriving DecidableEq, Repr

/-- Modelled from the spec: an SSH key record of the SSH Key Registry,
owned by the Machine it references. -/
structure SSHKey where
  id : Nat
  machine_id : Nat
  key_text : String
deriving DecidableEq, Repr

/-- Modelled from the spec: the shared state of the three registries and
the per-kind identifier allocators (strictly increasing, starting at 1,
no reuse of deleted ids). Records are kept in insertion order, as `list()`
returns them. -/
structure ServerState where
  networks : List Network
  machines : List Machine
  sshkeys : List SSHKey
  nextNetworkId : Nat
  nextMachineId : Nat
  nextSSHKeyId : Nat
deriving DecidableEq, Repr

/-- Modelled from the spec: the initial, empty registry state. -/
def ServerState.empty : ServerState :=
  { networks := [], machines := [], sshkeys := [],
    nextNetworkId := 1, nextMachineId := 1, nextSSHKeyId := 1 }

/-- Modelled from the spec: an IPv4 address octet, `0`–`255` in decimal. -/
def validOctet (s : String) : Bool :=
  match s.toNat? with
  | some n => n ≤ 255
  | none => false

/-- Modelled from the spec: syntactic validity of a subnet in CIDR form,
`a.b.c.d/p` with each octet `0`–`255` and prefix length `0`–`32`. -/
def validCIDR (s : String) : Bool :=
  match s.splitOn "/" with
  | [addr, plen] =>
    (match addr.splitOn "." with
     | [a, b, c, d] => validOctet a && validOctet b && validOctet c && validOctet d
     | _ => false)
    &&
    (match plen.toNat? with
     | some p => p ≤ 32
     | none => false)
  | _ => false

/-- Modelled from the spec: a blank string (for the `EmptyKey` check on
`key_text`, required non-empty). -/
def isBlank (s : String) : Bool :=
  s.data.all Char.isWhitespace

/-- Modelled from the spec: Network Registry `create`. Fails with
`DuplicateName` if the name is already present, with `InvalidSubnet` if the
subnet is not syntactically valid CIDR; otherwise allocates the next id,
stores the record and returns it. A failed call returns the state
unchanged (each request fully succeeds or fully fails). -/
def networkCreate (s : ServerState) (name bridge subnet : String)
    (gateway dns_servers description : Option String) : ServerState × Except Err Network :=
  if s.networks.any (fun n => n.name == name) then
    (s, Except.error Err.DuplicateName)
  else if !validCIDR subnet then
    (s, Except.error Err.InvalidSubnet)
  else
    let n : Network :=
      { id := s.nextNetworkId, name := name, bridge := bridge, subnet := subnet,
        gateway := gateway, dns_servers := dns_servers, description := description }
    ({ s with networks := s.networks ++ [n], nextNetworkId := s.nextNetworkId + 1 },
     Except.ok n)

/-- Modelled from the spec: Machine Registry `create`. Fails with
`DuplicateName`; if `network_id` is given, fails with `UnknownNetwork` when
the Network Registry has no such id; otherwise allocates an id and stores.
A failed call returns the state unchanged. -/
def machineCreate (s : ServerState) (name hostname : String)
    (ipv4 : Option String) (network_id : Option Nat) : ServerState × Except Err Machine :=
  if s.machines.any (fun m => m.name == name) then
    (s, Except.error Err.DuplicateName)
  else
    match network_id with
    | some nid =>
      if s.networks.any (fun n => n.id == nid) then
        let m : Machine :=
          { id := s.nextMachineId, name := name, hostname := hostname,
            ipv4 := ipv4, network_id := some nid }
        ({ s with machines := s.machines ++ [m], nextMachineId := s.nextMachineId + 1 },
         Except.ok m)
      else
        (s, Except.error Err.UnknownNetwork)
    | none =>
      let m : Machine :=
        { id := s.nextMachineId, name := name, hostname := hostname,
          ipv4 := ipv4, network_id := none }
      ({ s with machines := s.machines ++ [m], nextMachineId := s.nextMachineId + 1 },
       Except.ok m)

/-- Modelled from the spec: SSH Key Registry `create`. Fails with
`UnknownMachine` if `machine_id` references no stored Machine, with
`EmptyKey` if `key_text` is blank; otherwise allocates an id and stores.
A failed call returns the state unchanged. -/
def sshKeyCreate (s : ServerState) (machine_id : Nat) (key_text : String) :
    ServerState × Except Err SSHKey :=
  if !(s.machines.any (fun m => m.id == machine_id)) then
    (s, Except.error Err.UnknownMachine)
  else if isBlank key_text then
    (s, Except.error Err.EmptyKey)
  else
    let k : SSHKey := { id := s.nextSSHKeyId, machine_id := machine_id, key_text := key_text }
    ({ s with sshkeys := s.sshkeys ++ [k], nextSSHKeyId := s.nextSSHKeyId + 1 },
     Except.ok k)

/-- Modelled from the spec: Machine Registry `delete`. Fails with
`NotFound` if no stored Machine has the id; otherwise deletes every SSHKey
owned by the machine (their lifetime is tied to it) and then removes the
machine record. Networks are untouched. -/
def machineDelete (s : ServerState) (i : Nat) : ServerState × Except Err Unit :=
  if s.machines.any (fun m => m.id == i) then
    ({ s with machines := s.machines.filter (fun m => m.id != i),
              sshkeys := s.sshkeys.filter (fun k => k.machine_id != i) },
     Except.ok ())
  else
    (s, Except.error Err.NotFound)

/-- Modelled from the spec: Network Registry `delete`. Fails with
`NotFound` if absent; fails with `ReferencedByMachine` if any Machine
currently references this network (referential-integrity guard, no
cascading delete of machines); otherwise removes the record. -/
def networkDelete (s : ServerState) (i : Nat) : ServerState × Except Err Unit :=
  if s.networks.any (fun n => n.id == i) then
    if s.machines.any (fun m => m.network_id == some i) then
      (s, Except.error Err.ReferencedByMachine)
    else
      ({ s with networks := s.networks.filter (fun n => n.id != i) }, Except.ok ())
  else
    (s, Except.error Err.NotFound)

/-- Modelled from the spec: SSH Key Registry `delete`. Fails with
`NotFound` if absent. -/
def sshKeyDelete (s : ServerState) (i : Nat) : ServerState × Except Err Unit :=
  if s.sshkeys.any (fun k => k.id == i) then
    ({ s with sshkeys := s.sshkeys.filter (fun k => k.id != i) }, Except.ok ())
  else
    (s, Except.error Err.NotFound)

end NookServer

namespace Nook

theorem applyCall_fst (c : NookClient) (a : ApiCall) : (applyCall c a).1 = c := by
  cases a <;> rfl

theorem runCalls_eq_self (c : NookClient) (calls : List ApiCall) : runCalls c calls = c := by
  induction calls with
  | nil => rfl
  | cons a rest ih =>
    show runCalls (applyCall c a).1 rest = c
    rw [applyCall_fst]
    exact ih

theorem dropWhile_slash_replicate (n : Nat) (l : List Char) :
    List.dropWhile (fun c => c = '/') (List.replicate n '/' ++ l) =
      List.dropWhile (fun c => c = '/') l := by
  induction n with
  | zero => rfl
  | succ k ih => simp [List.replicate_succ, List.dropWhile_cons, ih]

theorem rstripSlashes_append_replicate (s : String) (n : Nat) :
    rstripSlashes (s ++ String.mk (List.replicate n '/')) = rstripSlashes s := by
  unfold rstripSlashes
  congr 1
  rw [String.data_append]
  show ((s.data ++ List.replicate n '/').reverse.dropWhile (fun c => c = '/')).reverse
      = (s.data.reverse.dropWhile (fun c => c = '/')).reverse
  rw [List.reverse_append, List.reverse_replicate, dropWhile_slash_replicate]

theorem rstripSlashes_no_trailing (s : String) (h : s.data.getLast? ≠ some '/') :
    rstripSlashes s = s := by
  have hh : s.data.reverse.head? ≠ some '/' := by rwa [List.head?_reverse]
  cases s with
  | mk l =>
    show String.mk ((l.reverse.dropWhile (fun c => c = '/')).reverse) = String.mk l
    congr 1
    cases hrev : l.reverse with
    | nil =>
      have hl : l = [] := by simpa using congrArg List.reverse hrev
      simp [hl]
    | cons c t =>
      have hc : ¬ (c = '/') := by
        intro hEq
        apply hh
        rw [hrev, hEq]
        rfl
      have hstep : List.dropWhile (fun c => decide (c = '/')) (c :: t) = c :: t := by
        simp [List.dropWhile_cons, hc]
      rw [hstep, ← hrev, List.reverse_reverse]

end Nook

namespace NookServer

/-- A concrete registry state: one network, one machine attached to it, and
one SSH key on that machine (the spec's end-to-end scenario). -/
def sampleState : ServerState :=
  { networks := [{ id := 1, name := "example-net", bridge := "br0",
                   subnet := "192.168.100.0/24", gateway := some "192.168.100.1",
                   dns_servers := none, description := some "Example network for testing" }],
    machines := [{ id := 1, name := "example-vm", hostname := "example-vm.local",
                   ipv4 := some "192.168.100.10", network_id := some 1 }],
    sshkeys := [{ id := 1, machine_id := 1, key_text := "ssh-rsa AAAA" }],
    nextNetworkId := 2, nextMachineId := 2, nextSSHKeyId := 2 }

/-- C5: deleting a stored Machine succeeds, removes it and every SSHKey
with its machine id (the cascade), leaves all Networks unchanged; deleting
an id with no stored Machine fails with `NotFound`. -/
theorem machine_delete_cascades :
    (∀ (s : ServerState) (m : Machine), m ∈ s.machines →
      (machineDelete s m.id).2 = Except.ok () ∧
      (∀ m2 ∈ (machineDelete s m.id).1.machines, m2.id ≠ m.id) ∧
      (∀ k ∈ (machineDelete s m.id).1.sshkeys, k.machine_id ≠ m.id) ∧
      (machineDelete s m.id).1.networks = s.networks) ∧
    (∀ (s : ServerState) (i : Nat), (∀ m ∈ s.machines, m.id ≠ i) →
      machineDelete s i = (s, Except.error Err.NotFound)) := by
  constructor
  · intro s m hm
    have hany : s.machines.any (fun m2 => m2.id == m.id) = true := by
      rw [List.any_eq_true]
      exact ⟨m, hm, by simp⟩
    have hD : machineDelete s m.id =
        ({ s with machines := s.machines.filter (fun m2 => m2.id != m.id),
                  sshkeys := s.sshkeys.filter (fun k => k.machine_id != m.id) },
         Except.ok ()) := by
      unfold machineDelete
      simp [hany]
    rw [hD]
    refine ⟨rfl, ?_, ?_, rfl⟩
    · intro m2 hm2
      have hf := List.of_mem_filter hm2
      simpa using hf
    · intro k hk
      have hf := List.of_mem_filter hk
      simpa using hf
  · intro s i hnone
    have hany : s.machines.any (fun m => m.id == i) = false := by
      rw [List.any_eq_false]
      intro m hm
      simpa using hnone m hm
    unfold machineDelete
    simp [hany]

/-- Witness for C5: deleting machine 1 of the sample state succeeds and
keeps the network list; deleting absent id 7 fails with `NotFound`. -/
theorem machine_delete_cascades_witness :
    (machineDelete sampleState 1).2 = Except.ok () ∧
    (machineDelete sampleState 1).1.networks = sampleState.networks ∧
    machineDelete sampleState 7 = (sampleState, Except.error Err.NotFound) :=
  ⟨(machine_delete_cascades.1 sampleState
      ⟨1, "example-vm", "example-vm.local", some "192.168.100.10", some 1⟩ (by decide)).1,
   (machine_delete_cascades.1 sampleState
      ⟨1, "example-vm", "example-vm.local", some "192.168.100.10", some 1⟩ (by decide)).2.2.2,
   machine_delete_cascades.2 sampleState 7 (by decide)⟩

/-- C6: deleting a stored Network that some stored Machine references fails
with `ReferencedByMachine` and the state — the network included — is
unchanged; deleting an id with no stored Network fails with `NotFound`. -/
theorem network_delete_guard :
    (∀ (s : ServerState) (n : Network), n ∈ s.networks →
      (∃ m ∈ s.machines, m.network_id = some n.id) →
      networkDelete s n.id = (s, Except.error Err.ReferencedByMachine) ∧
      n ∈ (networkDelete s n.id).1.networks) ∧
    (∀ (s : ServerState) (i : Nat), (∀ n ∈ s.networks, n.id ≠ i) →
      networkDelete s i = (s, Except.error Err.NotFound)) := by
  constructor
  · intro s n hn hex
    have hany : s.networks.any (fun n2 => n2.id == n.id) = true := by
      rw [List.any_eq_true]
      exact ⟨n, hn, by simp⟩
    have hmach : s.machines.any (fun m => m.network_id == some n.id) = true := by
      rw [List.any_eq_true]
      obtain ⟨m, hm, hmn⟩ := hex
      exact ⟨m, hm, by simp [hmn]⟩
    have hD : networkDelete s n.id = (s, Except.error Err.ReferencedByMachine) := by
      unfold networkDelete
      simp [hany, hmach]
    exact ⟨hD, by rw [hD]; exact hn⟩
  · intro s i hnone
    have hany : s.networks.any (fun n => n.id == i) = false := by
      rw [List.any_eq_false]
      intro n hn
      simpa using hnone n hn
    unfold networkDelete
    simp [hany]

/-- Witness for C6: in the sample state machine 1 references network 1, so
deleting network 1 fails with `ReferencedByMachine`; deleting absent id 9
fails with `NotFound`. -/
theorem network_delete_guard_witness :
    networkDelete sampleState 1 = (sampleState, Except.error Err.ReferencedByMachine) ∧
    networkDelete sampleState 9 = (sampleState, Except.error Err.NotFound) :=
  ⟨(network_delete_guard.1 sampleState
      ⟨1, "example-net", "br0", "192.168.100.0/24", some "192.168.100.1", none,
       some "Example network for testing"⟩ (by decide)
      ⟨⟨1, "example-vm", "example-vm.local", some "192.168.100.10", some 1⟩, by decide, rfl⟩).1,
   network_delete_guard.2 sampleState 9 (by decide)⟩

/-- C7: a failing create — on any of the registries, with any of the error
kinds — leaves the registry state exactly as it was: no record stored, no
id consumed. -/
theorem failed_create_preserves_state :
    (∀ (s : ServerState) (name bridge subnet : String) (gw dns desc : Option String) (e : Err),
      (networkCreate s name bridge subnet gw dns desc).2 = Except.error e →
      (networkCreate s name bridge subnet gw dns desc).1 = s) ∧
    (∀ (s : ServerState) (name hostname : String) (ipv4 : Option String) (nid : Option Nat) (e : Err),
      (machineCreate s name hostname ipv4 nid).2 = Except.error e →
      (machineCreate s name hostname ipv4 nid).1 = s) ∧
    (∀ (s : ServerState) (mid : Nat) (kt : String) (e : Err),
      (sshKeyCreate s mid kt).2 = Except.error e →
      (sshKeyCreate s mid kt).1 = s) := by
  refine ⟨?_, ?_, ?_⟩
  · intro s name bridge subnet gw dns desc e h
    cases hx : s.networks.any (fun n2 => n2.name == name) with
    | true => simp [networkCreate, hx]
    | false =>
      cases hy : validCIDR subnet with
      | false => simp [networkCreate, hx, hy]
      | true =>
        exfalso
        simp [networkCreate, hx, hy] at h
  · intro s name hostname ipv4 nid e h
    cases hx : s.machines.any (fun m => m.name == name) with
    | true => simp [machineCreate, hx]
    | false =>
      cases nid with
      | none =>
        exfalso
        simp [machineCreate, hx] at h
      | some v =>
        cases hy : s.networks.any (fun n2 => n2.id == v) with
        | true =>
          exfalso
          simp [machineCreate, hx, hy] at h
        | false => simp [machineCreate, hx, hy]
  · intro s mid kt e h
    cases hx : s.machines.any (fun m => m.id == mid) with
    | false => simp [sshKeyCreate, hx]
    | true =>
      cases hy : isBlank kt with
      | true => simp [sshKeyCreate, hx, hy]
      | false =>
        exfalso
        simp [sshKeyCreate, hx, hy] at h

/-- Witness for C7: a duplicate network name, a machine pointed at a
non-existent network, and a blank SSH key all fail and leave the sample
state untouched. -/
theorem failed_create_preserves_state_witness :
    (networkCreate sampleState "example-net" "br1" "10.0.0.0/24" none none none).1 = sampleState ∧
    (machineCreate sampleState "new-vm" "new-vm.local" none (some 99)).1 = sampleState ∧
    (sshKeyCreate sampleState 1 "").1 = sampleState :=
  ⟨failed_create_preserves_state.1 sampleState "example-net" "br1" "10.0.0.0/24"
      none none none Err.DuplicateName rfl,
   failed_create_preserves_state.2.1 sampleState "new-vm" "new-vm.local"
      none (some 99) Err.UnknownNetwork rfl,
   failed_create_preserves_state.2.2 sampleState 1 "" Err.EmptyKey rfl⟩

end NookServer

namespace Nook

/-- C1 (amended): for every `NookClient` method, if the HTTP response status
is a 4xx or 5xx error (`400 ≤ status < 600`) the call raises and returns no
value; if the status is 2xx, the GET and POST methods return the response
body parsed as JSON, and `delete_machine` and `delete_ssh_key` return
`None`, the body discarded. -/
theorem handle_response_status (r : HttpResponse) :
    (400 ≤ r.status → r.status < 600 →
      get_machines_handle r = Except.error r.status ∧
      create_machine_handle r = Except.error r.status ∧
      get_machine_by_name_handle r = Except.error r.status ∧
      delete_machine_handle r = Except.error r.status ∧
      get_networks_handle r = Except.error r.status ∧
      create_network_handle r = Except.error r.status ∧
      get_ssh_keys_handle r = Except.error r.status ∧
      add_ssh_key_handle r = Except.error r.status ∧
      delete_ssh_key_handle r = Except.error r.status) ∧
    (200 ≤ r.status → r.status < 300 →
      get_machines_handle r = Except.ok r.jsonBody ∧
      create_machine_handle r = Except.ok r.jsonBody ∧
      get_machine_by_name_handle r = Except.ok r.jsonBody ∧
      delete_machine_handle r = Except.ok () ∧
      get_networks_handle r = Except.ok r.jsonBody ∧
      create_network_handle r = Except.ok r.jsonBody ∧
      get_ssh_keys_handle r = Except.ok r.jsonBody ∧
      add_ssh_key_handle r = Except.ok r.jsonBody ∧
      delete_ssh_key_handle r = Except.ok ()) := by
  constructor
  · intro h1 h2
    have hr : raise_for_status r = Except.error r.status := by
      unfold raise_for_status
      exact if_pos ⟨h1, h2⟩
    refine ⟨?_, ?_, ?_, ?_, ?_, ?_, ?_, ?_, ?_⟩ <;>
      simp [get_machines_handle, create_machine_handle, get_machine_by_name_handle,
        delete_machine_handle, get_networks_handle, create_network_handle,
        get_ssh_keys_handle, add_ssh_key_handle, delete_ssh_key_handle, hr]
  · intro h1 h2
    have hr : raise_for_status r = Except.ok () := by
      unfold raise_for_status
      exact if_neg (by omega)
    refine ⟨?_, ?_, ?_, ?_, ?_, ?_, ?_, ?_, ?_⟩ <;>
      simp [get_machines_handle, create_machine_handle, get_machine_by_name_handle,
        delete_machine_handle, get_networks_handle, create_network_handle,
        get_ssh_keys_handle, add_ssh_key_handle, delete_ssh_key_handle, hr]

/-- Witness for C1 at concrete statuses 404 and 204. -/
theorem handle_response_status_witness :
    get_machines_handle ⟨404, Json.null⟩ = Except.error 404 ∧
    delete_machine_handle ⟨204, Json.null⟩ = Except.ok () :=
  ⟨((handle_response_status ⟨404, Json.null⟩).1 (by decide) (by decide)).1,
   ((handle_response_status ⟨204, Json.null⟩).2 (by decide) (by decide)).2.2.2.1⟩

/-- Counterexample for C1 as stated: status 304 is not 2xx, yet
`delete_machine` does not raise — `requests.raise_for_status` only raises
for 4xx/5xx — and the call returns `None` as on success. -/
theorem handle_response_status_counterexample :
    ¬ (200 ≤ 304 ∧ 304 < 300) ∧
    delete_machine_handle ⟨304, Json.null⟩ = Except.ok () :=
  ⟨by omega, rfl⟩

/-- C2 (amended): the body of `create_machine` always contains `name` and
`hostname` bound to the arguments, contains `ipv4` exactly when that
argument is provided and truthy (non-empty), and `network_id` exactly when
provided and truthy (non-zero) — Python truthiness, so providing `""` or
`0` omits the key. -/
theorem create_machine_body (c : NookClient) (name hostname : String)
    (ipv4 : Option String) (network_id : Option Int) :
    (c.create_machine name hostname ipv4 network_id).body =
      some (([("name", Json.str name), ("hostname", Json.str hostname)]
        ++ (if truthyStr ipv4 then [("ipv4", Json.str (ipv4.getD ""))] else []))
        ++ (if truthyInt network_id then [("network_id", Json.num (network_id.getD 0))] else [])) := by
  unfold NookClient.create_machine
  cases h1 : truthyStr ipv4 <;> cases h2 : truthyInt network_id <;> simp [h1, h2]

/-- Counterexample for C2 as stated: with `ipv4 = ""` and `network_id = 0`
both provided, the body holds only `name` and `hostname`; the provided
optional keys are absent. -/
theorem create_machine_body_counterexample :
    ((NookClient.init "http://localhost:8080").create_machine "vm" "vm.local"
        (some "") (some 0)).bodyKeys = ["name", "hostname"] ∧
    "ipv4" ∉ ((NookClient.init "http://localhost:8080").create_machine "vm" "vm.local"
        (some "") (some 0)).bodyKeys ∧
    "network_id" ∉ ((NookClient.init "http://localhost:8080").create_machine "vm" "vm.local"
        (some "") (some 0)).bodyKeys := by
  refine ⟨rfl, ?_, ?_⟩ <;> decide

/-- C3 (amended): the body of `create_network` always contains `name`,
`bridge` and `subnet` bound to the arguments, and contains each of
`gateway`, `dns_servers` and `description` exactly when that argument is
provided and truthy (non-empty) — Python truthiness, so providing `""`
omits the key. -/
theorem create_network_body (c : NookClient) (name bridge subnet : String)
    (gateway dns_servers description : Option String) :
    (c.create_network name bridge subnet gateway dns_servers description).body =
      some ((([("name", Json.str name), ("bridge", Json.str bridge), ("subnet", Json.str subnet)]
        ++ (if truthyStr gateway then [("gateway", Json.str (gateway.getD ""))] else []))
        ++ (if truthyStr dns_servers then [("dns_servers", Json.str (dns_servers.getD ""))] else []))
        ++ (if truthyStr description then [("description", Json.str (description.getD ""))] else [])) := by
  unfold NookClient.create_network
  cases h1 : truthyStr gateway <;> cases h2 : truthyStr dns_servers <;>
    cases h3 : truthyStr description <;> simp [h1, h2, h3]

/-- Counterexample for C3 as stated: with `gateway`, `dns_servers` and
`description` all provided as `""`, the body holds only `name`, `bridge`
and `subnet`; the provided optional keys are absent. -/
theorem create_network_body_counterexample :
    ((NookClient.init "http://localhost:8080").create_network "net" "br0" "10.0.0.0/24"
        (some "") (some "") (some "")).bodyKeys = ["name", "bridge", "subnet"] ∧
    "gateway" ∉ ((NookClient.init "http://localhost:8080").create_network "net" "br0" "10.0.0.0/24"
        (some "") (some "") (some "")).bodyKeys := by
  refine ⟨rfl, ?_⟩
  decide

/-- C4: every `NookClient` method issues exactly the verb and path of the
endpoint table, the path appended to the stored `base_url`. -/
theorem client_endpoints (c : NookClient) (name hostname bridge subnet kt : String)
    (ipv4 gw dns desc : Option String) (nid : Option Int) (mid kid : Int) :
    (c.get_machines.method = Method.GET ∧
      c.get_machines.url = c.base_url ++ "/api/v0/machines") ∧
    ((c.create_machine name hostname ipv4 nid).method = Method.POST ∧
      (c.create_machine name hostname ipv4 nid).url = c.base_url ++ "/api/v0/machines") ∧
    ((c.get_machine_by_name name).method = Method.GET ∧
      (c.get_machine_by_name name).url = c.base_url ++ "/api/v0/machines/name/" ++ name) ∧
    ((c.delete_machine mid).method = Method.DELETE ∧
      (c.delete_machine mid).url = c.base_url ++ "/api/v0/machines/" ++ toString mid) ∧
    (c.get_networks.method = Method.GET ∧
      c.get_networks.url = c.base_url ++ "/api/v0/networks") ∧
    ((c.create_network name bridge subnet gw dns desc).method = Method.POST ∧
      (c.create_network name bridge subnet gw dns desc).url = c.base_url ++ "/api/v0/networks") ∧
    (c.get_ssh_keys.method = Method.GET ∧
      c.get_ssh_keys.url = c.base_url ++ "/api/v0/ssh-keys") ∧
    ((c.add_ssh_key mid kt).method = Method.POST ∧
      (c.add_ssh_key mid kt).url = c.base_url ++ "/api/v0/ssh-keys") ∧
    ((c.delete_ssh_key kid).method = Method.DELETE ∧
      (c.delete_ssh_key kid).url = c.base_url ++ "/api/v0/ssh-keys/" ++ toString kid) :=
  ⟨⟨rfl, rfl⟩, ⟨rfl, rfl⟩, ⟨rfl, rfl⟩, ⟨rfl, rfl⟩, ⟨rfl, rfl⟩, ⟨rfl, rfl⟩, ⟨rfl, rfl⟩,
   ⟨rfl, rfl⟩, ⟨rfl, rfl⟩⟩

/-- C8: `add_ssh_key` sends both `machine_id` and `key_text`
unconditionally — also for `key_text = ""` and `machine_id = 0` — with no
client-side validation, unlike `create_machine` and `create_network`,
which drop falsy optional arguments. -/
theorem add_ssh_key_body_unconditional :
    (∀ (c : NookClient) (mid : Int) (kt : String),
      (c.add_ssh_key mid kt).body =
        some [("machine_id", Json.num mid), ("key_text", Json.str kt)]) ∧
    (∀ (c : NookClient) (name hostname : String),
      (c.create_machine name hostname (some "") (some 0)).bodyKeys = ["name", "hostname"]) ∧
    (∀ (c : NookClient) (name bridge subnet : String),
      (c.create_network name bridge subnet (some "") (some "") (some "")).bodyKeys
        = ["name", "bridge", "subnet"]) :=
  ⟨fun _ _ _ => rfl, fun _ _ _ => rfl, fun _ _ _ _ => rfl⟩

/-- C9: the constructor normalises `base_url` by stripping all trailing
slashes, so a client built from `b` followed by any number of `'/'`
characters equals — and therefore issues exactly the same requests as —
the client built from `b`; when `b` has no trailing slash, `base_url` is
`b` itself. -/
theorem init_normalises_base_url :
    (∀ (b : String) (n : Nat),
      NookClient.init (b ++ String.mk (List.replicate n '/')) = NookClient.init b) ∧
    (∀ b : String, b.data.getLast? ≠ some '/' →
      NookClient.init b = { base_url := b, headers := defaultHeaders }) := by
  constructor
  · intro b n
    unfold NookClient.init
    rw [rstripSlashes_append_replicate]
  · intro b h
    unfold NookClient.init
    rw [rstripSlashes_no_trailing b h]

/-- Witness for C9 at a concrete base URL and two trailing slashes. -/
theorem init_normalises_base_url_witness :
    NookClient.init ("http://localhost:8080" ++ String.mk (List.replicate 2 '/')) =
      NookClient.init "http://localhost:8080" ∧
    NookClient.init "http://localhost:8080" =
      { base_url := "http://localhost:8080", headers := defaultHeaders } :=
  ⟨init_normalises_base_url.1 "http://localhost:8080" 2,
   init_normalises_base_url.2 "http://localhost:8080" (by decide)⟩

/-- C10: no method call mutates the client object — after any sequence of
calls the state equals the constructed state, the constructed headers are
the two defaults, and the request a call issues does not depend on the
call history. -/
theorem client_immutable :
    (∀ (b : String) (calls : List ApiCall),
      runCalls (NookClient.init b) calls = NookClient.init b) ∧
    (∀ b : String, (NookClient.init b).headers =
      [("Content-Type", "application/json"), ("User-Agent", "nook-python-client/1.0")]) ∧
    (∀ (c : NookClient) (calls : List ApiCall) (call : ApiCall),
      (applyCall (runCalls c calls) call).2 = (applyCall c call).2) :=
  ⟨fun b calls => runCalls_eq_self (NookClient.init b) calls,
   fun _ => rfl,
   fun c calls call => by rw [runCalls_eq_self]⟩

end Nook
